import Mathlib

/-!
Verification development for the foodgram recipe-sharing backend.

The Python sources under backend/ are shallowly embedded below: Django ORM
tables become explicit lists of rows, view and serializer methods become pure
functions over those lists, and operations that can raise return an Except
value or a pair of (observable database state, outcome).  Machine integers in
the source are Python arbitrary-precision ints except inside SHA-256, where
every 32-bit operation is reduced modulo 2^32 explicitly.
-/

namespace Foodgram

/-- Recipe row, restricted to the fields the verified operations read
(primary key, name, image reference, cooking time). -/
structure Recipe where
  id : Nat
  name : String
  image : String
  cooking_time : Nat
deriving DecidableEq, Repr

/-- Short representation of a recipe returned by the collection add endpoints
(the fields of ShoppingCartSerializer / FavoriteSerializer in
backend/api/serializers.py: id, name, image, cooking_time). -/
structure ShortRepr where
  id : Nat
  name : String
  image : String
  cooking_time : Nat
deriving DecidableEq, Repr

def shortRepr (r : Recipe) : ShortRepr :=
  ⟨r.id, r.name, r.image, r.cooking_time⟩

/-- Embedding of AddRemoveObjectMixin.add_to (backend/api/mixins.py 11-27).
A membership table (Favorite or ShoppingCart) is a list of (user id,
recipe id) rows.  If the pair already exists the handler answers 400 with
the conflict message and writes nothing; otherwise it creates the row and
answers 201 with the short representation of the recipe. -/
def add_to (memberships : List (Nat × Nat)) (user : Nat) (recipe : Recipe) :
    List (Nat × Nat) × Except String ShortRepr :=
  if (user, recipe.id) ∈ memberships then
    (memberships, Except.error "Элемент уже присутствует")
  else
    ((user, recipe.id) :: memberships, Except.ok (shortRepr recipe))

/-- Embedding of AddRemoveObjectMixin.remove_from (backend/api/mixins.py
29-45).  The first matching row is deleted; if none exists the handler
answers 400 and the table is unchanged. -/
def remove_from (memberships : List (Nat × Nat)) (user : Nat) (recipe : Recipe) :
    List (Nat × Nat) × Except String Unit :=
  if (user, recipe.id) ∈ memberships then
    (memberships.erase (user, recipe.id), Except.ok ())
  else
    (memberships, Except.error "Элемента нет")

/-- Embedding of RecipeViewSet.delete_shopping_cart (backend/api/views.py
173-196).  Recipe.objects.get raises DoesNotExist when no recipe has the
given primary key (answered 404); ShoppingCart.objects.get raises when the
(user, recipe) row is absent (answered 400); otherwise the row is deleted. -/
def delete_shopping_cart (recipes : List Recipe) (cart : List (Nat × Nat))
    (user pk : Nat) : List (Nat × Nat) × Except String Unit :=
  if recipes.any (fun r => r.id == pk) then
    if (user, pk) ∈ cart then
      (cart.erase (user, pk), Except.ok ())
    else
      (cart, Except.error "Данный рецепт отсутствует в вашем списке покупок.")
  else
    (cart, Except.error "Рецепт не найден.")

/-- Modelled from the spec: the SubscribeSerializer used by
UserViewSet.subscribe (backend/api/views.py 277-289) is imported from
api.serializers but its definition is absent from the sources.  Per the spec
contract, subscribe(follower, followee) rejects follower == followee
("cannot follow self"), rejects an already existing edge ("already
following"), and otherwise creates the edge.  The subscription graph is a
list of (user id, author id) edges. -/
def subscribe (edges : List (Nat × Nat)) (user author : Nat) :
    Except String (List (Nat × Nat)) :=
  if user = author then Except.error "cannot follow self"
  else if (user, author) ∈ edges then Except.error "already following"
  else Except.ok ((user, author) :: edges)

/-- Digit value of a Unicode character of Numeric_Type=Decimal — exactly the
characters int() accepts.  The Unicode database is modelled by a finite
fragment sufficient for the inputs reasoned about here: the ASCII digits and,
representative of the non-ASCII decimal-digit blocks, the Arabic-Indic
digits U+0660 to U+0669; every other code point is treated as non-decimal. -/
def pyDecimalDigitVal (c : Char) : Option Nat :=
  if 48 ≤ c.toNat ∧ c.toNat ≤ 57 then some (c.toNat - 48)
  else if 1632 ≤ c.toNat ∧ c.toNat ≤ 1641 then some (c.toNat - 1632)
  else none

/-- Characters accepted by Python str.isdigit: the Numeric_Type=Decimal
characters together with the Numeric_Type=Digit ones, the latter modelled by
the superscript digits U+00B9, U+00B2, U+00B3, which isdigit accepts but
int() rejects. -/
def pyDigitChar (c : Char) : Bool :=
  (pyDecimalDigitVal c).isSome
    || (c.toNat == 185 || c.toNat == 178 || c.toNat == 179)

/-- Python str.isdigit: true exactly when the string is nonempty and every
character is a digit (decimal or digit-type) in the sense above. -/
def pyIsDigit (s : String) : Bool :=
  s.length != 0 && s.data.all pyDigitChar

/-- Value of int(s) on a nonempty all-decimal string. -/
def pyIntVal (s : String) : Nat :=
  s.data.foldl (fun a c => 10 * a + (pyDecimalDigitVal c).getD 0) 0

/-- Python int(s) as called on the raw parameter: accepts a nonempty string
whose characters all have Numeric_Type=Decimal and returns its value;
on any other input (in particular an isdigit-true string holding a
digit-type non-decimal character such as a superscript) it raises
ValueError. -/
def pyInt (s : String) : Except String Nat :=
  if s.length != 0 && s.data.all (fun c => (pyDecimalDigitVal c).isSome) then
    Except.ok (pyIntVal s)
  else Except.error "ValueError"

/-- Embedding of SubscriptionSerializer.get_recipes (backend/api/serializers.py
101-117).  The caller-supplied recipes_limit query parameter is parsed with
int() only when it is truthy (nonempty) and isdigit; a ValueError raised by
int() escapes the method (the view has no handler for it), and the slice is
applied only when the parsed value is itself truthy (nonzero), mirroring the
two Python truthiness tests. -/
def get_recipes (recipes_limit_param : Option String) (recipes : List Recipe) :
    Except String (List Recipe) :=
  match recipes_limit_param with
  | some limit_str =>
      if limit_str.length != 0 && pyIsDigit limit_str then
        match pyInt limit_str with
        | Except.ok n =>
            Except.ok (if n = 0 then recipes else recipes.take n)
        | Except.error e => Except.error e
      else Except.ok recipes
  | none => Except.ok recipes

/-- Lexicographic order on character lists by code point, the executable model
of the alphabetical ORDER BY used by the shopping-cart query. -/
def lexLe : List Char → List Char → Bool
  | [], _ => true
  | _ :: _, [] => false
  | a :: s, b :: t =>
    if a.toNat = b.toNat then lexLe s t
    else a.toNat.ble b.toNat

theorem lexLe_cons (a b : Char) (s t : List Char) :
    lexLe (a :: s) (b :: t)
      = if a.toNat = b.toNat then lexLe s t else a.toNat.ble b.toNat := rfl

theorem lexLe_total : ∀ s t : List Char, lexLe s t = true ∨ lexLe t s = true
  | [], _ => Or.inl rfl
  | _ :: _, [] => Or.inr rfl
  | a :: s, b :: t => by
    rw [lexLe_cons, lexLe_cons]
    by_cases hab : a.toNat = b.toNat
    · rw [if_pos hab, if_pos hab.symm]
      exact lexLe_total s t
    · rw [if_neg hab, if_neg fun h => hab h.symm]
      simp only [Nat.ble_eq]
      omega

theorem lexLe_trans : ∀ s t u : List Char,
    lexLe s t = true → lexLe t u = true → lexLe s u = true
  | [], _, _ => fun _ _ => rfl
  | _ :: _, [], _ => fun h _ => by simp [lexLe] at h
  | _ :: _, _ :: _, [] => fun _ h => by simp [lexLe] at h
  | a :: s, b :: t, c :: u => by
    intro h1 h2
    rw [lexLe_cons] at h1 h2 ⊢
    by_cases hab : a.toNat = b.toNat <;> by_cases hbc : b.toNat = c.toNat
    · rw [if_pos hab] at h1
      rw [if_pos hbc] at h2
      rw [if_pos (hab.trans hbc)]
      exact lexLe_trans s t u h1 h2
    · rw [if_pos hab] at h1
      rw [if_neg hbc] at h2
      have hac : ¬ a.toNat = c.toNat := by rw [hab]; exact hbc
      rw [if_neg hac]
      simp only [Nat.ble_eq] at h2 ⊢
      omega
    · rw [if_neg hab] at h1
      rw [if_pos hbc] at h2
      have hac : ¬ a.toNat = c.toNat := by rw [← hbc]; exact hab
      rw [if_neg hac]
      simp only [Nat.ble_eq] at h1 ⊢
      omega
    · rw [if_neg hab] at h1
      rw [if_neg hbc] at h2
      simp only [Nat.ble_eq] at h1 h2
      have hac : ¬ a.toNat = c.toNat := by omega
      rw [if_neg hac]
      simp only [Nat.ble_eq]
      omega

/-- One row of the IngredientInRecipe table joined with its Ingredient row
(backend/recipes/models.py 148-182): the recipe foreign key and the joined
ingredient name, measurement unit, and per-recipe amount. -/
structure IngredientInRecipe where
  recipe : Nat
  ingredient_name : String
  measurement_unit : String
  amount : Nat
deriving DecidableEq, Repr

/-- Query names under which Recipe.objects.filter resolves a lookup keyword:
the concrete field names of Recipe (backend/recipes/models.py 75-124)
together with the reverse query names of the relations pointing at Recipe —
these are the declared related_name values recipe_ingredients
(IngredientInRecipe.recipe), favorites (Favorite.recipe) and shopping_carts
(ShoppingCart.recipe).  A filter keyword whose first segment is none of
these makes Django raise FieldError while the queryset is built. -/
def recipeQueryNames : List String :=
  ["id", "pk", "author", "name", "image", "text", "cooking_time", "tags",
   "ingredients", "created", "short_link_code",
   "recipe_ingredients", "favorites", "shopping_carts"]

/-- Embedding of Recipe.objects.filter(shoppingcart__user=user)
(backend/api/views.py 148).  The first segment of the lookup keyword
shoppingcart__user must be one of the Recipe query names; ShoppingCart.recipe
declares related_name shopping_carts, so no relation is named shoppingcart
and the call raises FieldError.  Were the keyword resolvable, the queryset
would be the recipes whose (user, recipe) row is in the ShoppingCart
table. -/
def cartRecipesQuery (cart : List (Nat × Nat)) (user : Nat) :
    Except String (List Nat) :=
  if "shoppingcart" ∈ recipeQueryNames then
    Except.ok ((cart.filter (fun p => p.1 == user)).map (fun p => p.2))
  else
    Except.error "FieldError: Cannot resolve keyword shoppingcart into field"

/-- Grouping key of .values(ingredient__name, ingredient__measurement_unit). -/
def rowKey (row : IngredientInRecipe) : String × String :=
  (row.ingredient_name, row.measurement_unit)

/-- Sum(amount) over the rows of one group: exact integer addition. -/
def totalAmount (rows : List IngredientInRecipe) (k : String × String) : Nat :=
  ((rows.filter (fun row => rowKey row == k)).map (fun row => row.amount)).sum

/-- Order of .order_by(ingredient__name): compare group keys by name only. -/
def keyLe (k1 k2 : String × String) : Prop :=
  lexLe k1.1.data k2.1.data = true

instance : DecidableRel keyLe := fun k1 k2 =>
  inferInstanceAs (Decidable (lexLe k1.1.data k2.1.data = true))

instance : IsTotal (String × String) keyLe :=
  ⟨fun k1 k2 => lexLe_total k1.1.data k2.1.data⟩

instance : IsTrans (String × String) keyLe :=
  ⟨fun k1 k2 k3 => lexLe_trans k1.1.data k2.1.data k3.1.data⟩

/-- The aggregation queryset of RecipeViewSet.download_shopping_cart
(backend/api/views.py 151-158) as it would run on a row set: rows grouped by
(ingredient name, measurement unit), each group carrying the exact sum of
its amounts, groups emitted in alphabetical order of ingredient name. -/
def aggregateRows (rows : List IngredientInRecipe) :
    List ((String × String) × Nat) :=
  (List.insertionSort keyLe (rows.map rowKey).dedup).map
    (fun k => (k, totalAmount rows k))

/-- Embedding of RecipeViewSet.generate_txt (backend/api/views.py 62-84):
the plain-text document built from the aggregated items, personalised with
the first name when it is nonempty (Python truthiness of user.first_name),
the username otherwise. -/
def generate_txt (items : List ((String × String) × Nat))
    (first_name username : String) : String :=
  let sep : String := ⟨List.replicate 40 (Char.ofNat 61)⟩
  let body := items.foldl
    (fun acc item =>
      acc ++ "• " ++ item.1.1 ++ " - " ++ toString item.2 ++ " "
        ++ item.1.2 ++ "\n") ""
  "Список покупок:\n\n" ++ sep ++ "\n\n" ++ body ++ "\n" ++ sep ++ "\n"
    ++ "Приятных покупок, "
    ++ (if first_name.length != 0 then first_name else username) ++ "!"

/-- Outcome of the download endpoint: an uncaught exception escaping the
view (a server error), an explicit error Response (HTTP 400), or a
FileResponse carrying the document. -/
inductive ViewOutcome where
  | crash : String → ViewOutcome
  | clientError : String → ViewOutcome
  | file : String → ViewOutcome
deriving DecidableEq, Repr

/-- Embedding of RecipeViewSet.download_shopping_cart (backend/api/views.py
144-165).  The first queryset raises FieldError, which no handler in the
view catches, so the request crashes; only if the lookup resolved would the
aggregation run, an empty result answer 400 with the empty-cart error, and
a nonempty result produce the text document as a file download. -/
def download_shopping_cart (table : List IngredientInRecipe)
    (cart : List (Nat × Nat)) (user : Nat) (first_name username : String) :
    ViewOutcome :=
  match cartRecipesQuery cart user with
  | Except.error e => ViewOutcome.crash e
  | Except.ok recipes_in_cart =>
      let shopping_list :=
        aggregateRows (table.filter (fun row => row.recipe ∈ recipes_in_cart))
      if shopping_list.isEmpty then
        ViewOutcome.clientError "Корзина покупок пуста"
      else
        ViewOutcome.file (generate_txt shopping_list first_name username)

/-- Database state touched by RecipeCreateSerializer.create: the Ingredient
table (ids), the Recipe table (ids), the recipe-tag association rows, and the
IngredientInRecipe rows (recipe id, ingredient id, amount). -/
structure RecipeDB where
  ingredients : List Nat
  recipes : List Nat
  recipe_tags : List (Nat × Nat)
  recipe_ingredients : List (Nat × Nat × Nat)
deriving DecidableEq, Repr

/-- Embedding of RecipeCreateSerializer.create (backend/api/serializers.py
281-303).  The method runs three separate ORM writes in order: create the
recipe row, set its tags, bulk-create the IngredientInRecipe rows.  The source
wraps none of them in transaction.atomic, so each write commits on its own;
the bulk insert is subject to the database foreign-key constraint on the
ingredient column and is rejected when a referenced ingredient row no longer
exists (for example, deleted between serializer validation and this call).
The function returns the observable database state after the method finishes
together with the outcome, so that the writes preceding a rejected bulk
insert remain visible, exactly as in the untransacted source. -/
def recipe_create (db : RecipeDB) (new_id : Nat) (tags_data : List Nat)
    (ingredients_data : List (Nat × Nat)) : RecipeDB × Except String Nat :=
  let db1 := { db with recipes := db.recipes ++ [new_id] }
  let db2 := { db1 with
    recipe_tags := db1.recipe_tags ++ tags_data.map (fun t => (new_id, t)) }
  if ingredients_data.all (fun p => db.ingredients.contains p.1) then
    ({ db2 with recipe_ingredients := db2.recipe_ingredients
        ++ ingredients_data.map (fun p => (new_id, p.1, p.2)) },
      Except.ok new_id)
  else
    (db2, Except.error "IntegrityError")

/-- Instance fields of a recipe that the update setattr loop touches. -/
structure RecipeInstance where
  name : String
  text : String
  cooking_time : Nat
deriving DecidableEq, Repr

/-- Remaining validated_data of an update after tags and ingredients are
popped; a present field is assigned by the setattr loop. -/
structure RecipeUpdateData where
  name : Option String
  text : Option String
  cooking_time : Option Nat
deriving DecidableEq, Repr

def applyFields (d : RecipeUpdateData) (f : RecipeInstance) : RecipeInstance :=
  { name := d.name.getD f.name
    text := d.text.getD f.text
    cooking_time := d.cooking_time.getD f.cooking_time }

/-- Persistent state of one existing recipe: its instance fields, its tag set
and its ingredient-quantity rows (ingredient id, amount). -/
structure RecipeRelState where
  fields : RecipeInstance
  tags : List Nat
  recipe_ingredients : List (Nat × Nat)
deriving DecidableEq, Repr

/-- Embedding of RecipeCreateSerializer.update (backend/api/serializers.py
305-340).  tags and ingredients are popped from validated_data; on a PUT or
PATCH request a missing tags set, then a missing ingredients set, raises a
ValidationError naming that field before any write happens.  Otherwise the
remaining fields are assigned and saved, a present tags set replaces the tag
associations, and a present ingredients set first deletes every existing
IngredientInRecipe row of the recipe and then bulk-creates the new rows.
The error value is the (field, message) pair of the raised ValidationError. -/
def recipe_update (method : String) (tags_data : Option (List Nat))
    (ingredients_data : Option (List (Nat × Nat))) (data : RecipeUpdateData)
    (st : RecipeRelState) : RecipeRelState × Except (String × String) Unit :=
  if (method = "PUT" ∨ method = "PATCH") ∧ tags_data = none then
    (st, Except.error ("tags", "Обязательно."))
  else if (method = "PUT" ∨ method = "PATCH") ∧ ingredients_data = none then
    (st, Except.error ("ingredients", "Обязательно."))
  else
    let st1 := { st with fields := applyFields data st.fields }
    let st2 := match tags_data with
      | some tags => { st1 with tags := tags }
      | none => st1
    let st3 := match ingredients_data with
      | some ingrs => { st2 with recipe_ingredients := ingrs }
      | none => st2
    (st3, Except.ok ())

/-- Reduction modulo 2^32, applied wherever hashlib works on 32-bit words. -/
def w32 (n : Nat) : Nat := n % 4294967296

/-- Right rotation of a 32-bit word. -/
def rotr (x n : Nat) : Nat := w32 ((x >>> n) ||| (x <<< (32 - n)))

/-- SHA-256 round constants. -/
def k256 : List Nat :=
  [1116352408, 1899447441, 3049323471, 3921009573,
   961987163, 1508970993, 2453635748, 2870763221,
   3624381080, 310598401, 607225278, 1426881987,
   1925078388, 2162078206, 2614888103, 3248222580,
   3835390401, 4022224774, 264347078, 604807628,
   770255983, 1249150122, 1555081692, 1996064986,
   2554220882, 2821834349, 2952996808, 3210313671,
   3336571891, 3584528711, 113926993, 338241895,
   666307205, 773529912, 1294757372, 1396182291,
   1695183700, 1986661051, 2177026350, 2456956037,
   2730485921, 2820302411, 3259730800, 3345764771,
   3516065817, 3600352804, 4094571909, 275423344,
   430227734, 506948616, 659060556, 883997877,
   958139571, 1322822218, 1537002063, 1747873779,
   1955562222, 2024104815, 2227730452, 2361852424,
   2428436474, 2756734187, 3204031479, 3329325298]

/-- The eight 32-bit working variables of the SHA-256 state. -/
structure Hash8 where
  a : Nat
  b : Nat
  c : Nat
  d : Nat
  e : Nat
  f : Nat
  g : Nat
  h : Nat
deriving DecidableEq, Repr

/-- SHA-256 initial hash value. -/
def initHash : Hash8 :=
  ⟨1779033703, 3144134277, 1013904242, 2773480762,
   1359893119, 2600822924, 528734635, 1541459225⟩

/-- Big-endian 8-byte rendering of the message bit length. -/
def beBytes8 (n : Nat) : List Nat :=
  [(n >>> 56) % 256, (n >>> 48) % 256, (n >>> 40) % 256, (n >>> 32) % 256,
   (n >>> 24) % 256, (n >>> 16) % 256, (n >>> 8) % 256, n % 256]

/-- SHA-256 padding: append 0x80, zero bytes up to 56 mod 64, and the
64-bit big-endian bit length. -/
def padBytes (msg : List Nat) : List Nat :=
  let len := msg.length
  let zeros := (64 - ((len + 9) % 64)) % 64
  msg ++ 128 :: List.replicate zeros 0 ++ beBytes8 (8 * len)

/-- Split into 64-byte chunks; the fuel argument (the list length bounds the
number of chunks) keeps the recursion structural. -/
def chunksAux : Nat → List Nat → List (List Nat)
  | 0, _ => []
  | _, [] => []
  | fuel + 1, x :: rest =>
      ((x :: rest).take 64) :: chunksAux fuel ((x :: rest).drop 64)

def chunks64 (l : List Nat) : List (List Nat) := chunksAux l.length l

/-- Big-endian 32-bit words of a chunk. -/
def bytesToWords : List Nat → List Nat
  | a :: b :: c :: d :: rest =>
      ((a <<< 24) ||| (b <<< 16) ||| (c <<< 8) ||| d) :: bytesToWords rest
  | _ => []

def smallSigma0 (x : Nat) : Nat := (rotr x 7) ^^^ (rotr x 18) ^^^ (x >>> 3)

def smallSigma1 (x : Nat) : Nat := (rotr x 17) ^^^ (rotr x 19) ^^^ (x >>> 10)

def bigSigma0 (x : Nat) : Nat := (rotr x 2) ^^^ (rotr x 13) ^^^ (rotr x 22)

def bigSigma1 (x : Nat) : Nat := (rotr x 6) ^^^ (rotr x 11) ^^^ (rotr x 25)

/-- SHA-256 choose function; 32-bit complement written as xor with 2^32-1. -/
def chFn (x y z : Nat) : Nat := (x &&& y) ^^^ ((x ^^^ 4294967295) &&& z)

def majFn (x y z : Nat) : Nat := (x &&& y) ^^^ (x &&& z) ^^^ (y &&& z)

/-- Extend the message schedule by one word. -/
def scheduleStep (w : List Nat) : List Nat :=
  let n := w.length
  w ++ [w32 (smallSigma1 (w.getD (n - 2) 0) + w.getD (n - 7) 0
    + smallSigma0 (w.getD (n - 15) 0) + w.getD (n - 16) 0)]

/-- The 64-entry message schedule from the 16 words of a chunk. -/
def fullSchedule (w16 : List Nat) : List Nat :=
  (List.range 48).foldl (fun w _ => scheduleStep w) w16

/-- One SHA-256 compression round for a (round constant, schedule word). -/
def compressStep (st : Hash8) (kw : Nat × Nat) : Hash8 :=
  let t1 := w32 (st.h + bigSigma1 st.e + chFn st.e st.f st.g + kw.1 + kw.2)
  let t2 := w32 (bigSigma0 st.a + majFn st.a st.b st.c)
  ⟨w32 (t1 + t2), st.a, st.b, st.c, w32 (st.d + t1), st.e, st.f, st.g⟩

/-- Process one 64-byte chunk: 64 compression rounds, then add into state. -/
def processChunk (st : Hash8) (chunk : List Nat) : Hash8 :=
  let w := fullSchedule (bytesToWords chunk)
  let o := (k256.zip w).foldl compressStep st
  ⟨w32 (st.a + o.a), w32 (st.b + o.b), w32 (st.c + o.c), w32 (st.d + o.d),
   w32 (st.e + o.e), w32 (st.f + o.f), w32 (st.g + o.g), w32 (st.h + o.h)⟩

def digestState (msg : List Nat) : Hash8 :=
  (chunks64 (padBytes msg)).foldl processChunk initHash

/-- Big-endian bytes of one state word. -/
def wordBytes (x : Nat) : List Nat :=
  [(x >>> 24) % 256, (x >>> 16) % 256, (x >>> 8) % 256, x % 256]

/-- The 32-byte SHA-256 digest of a byte sequence (hashlib.sha256(...).digest();
checked against the FIPS test vectors for the empty string and for abc). -/
def sha256Bytes (msg : List Nat) : List Nat :=
  let st := digestState msg
  wordBytes st.a ++ wordBytes st.b ++ wordBytes st.c ++ wordBytes st.d
    ++ wordBytes st.e ++ wordBytes st.f ++ wordBytes st.g ++ wordBytes st.h

/-- UTF-8 bytes of one character (str.encode()). -/
def utf8Bytes (c : Char) : List Nat :=
  let n := c.toNat
  if n < 128 then [n]
  else if n < 2048 then [192 + n / 64, 128 + n % 64]
  else if n < 65536 then [224 + n / 4096, 128 + (n / 64) % 64, 128 + n % 64]
  else [240 + n / 262144, 128 + (n / 4096) % 64, 128 + (n / 64) % 64,
        128 + n % 64]

/-- UTF-8 bytes of a string. -/
def strBytes (s : String) : List Nat :=
  s.data.foldr (fun c acc => utf8Bytes c ++ acc) []

/-- Alphabet of base64.urlsafe_b64encode. -/
def b64urlChars : List Char :=
  "ABCDEFGHIJKLMNOPQRSTUVWXYZabcdefghijklmnopqrstuvwxyz0123456789-_".data

/-- Alphabet lookup; the index of a base64 group is below 64 by construction,
so the modulus only makes the bound evident. -/
def b64char (n : Nat) : Char := b64urlChars.getD (n % 64) 'A'

/-- base64.urlsafe_b64encode on a byte sequence, with '=' padding for a
trailing group of one or two bytes. -/
def b64urlEncode : List Nat → List Char
  | [] => []
  | [a] => [b64char (a >>> 2), b64char ((a &&& 3) <<< 4), '=', '=']
  | [a, b] => [b64char (a >>> 2), b64char (((a &&& 3) <<< 4) ||| (b >>> 4)),
               b64char ((b &&& 15) <<< 2), '=']
  | a :: b :: c :: rest =>
      b64char (a >>> 2) :: b64char (((a &&& 3) <<< 4) ||| (b >>> 4))
        :: b64char (((b &&& 15) <<< 2) ||| (c >>> 6)) :: b64char (c &&& 63)
        :: b64urlEncode rest

/-- Embedding of the deterministic branch of generate_short_link_code
(backend/recipes/services.py 17-23, identical in Recipe.generate_short_link_code,
backend/recipes/models.py 126-136): the UTF-8 bytes of the secret concatenated
with the decimal identifier are hashed with SHA-256, the leading 6 digest
bytes are urlsafe-base64 encoded, and every '=' is removed
(str.replace removes all occurrences). -/
def shortCodeOfId (secret : String) (recipe_id : Nat) : String :=
  let raw_data := strBytes (secret ++ toString recipe_id)
  let hashed_data := sha256Bytes raw_data
  ⟨(b64urlEncode (hashed_data.take 6)).filter (fun c => c ≠ '=')⟩

/-- Modelled from the spec for the refinement comparison: concatenate a server
secret with the decimal recipe identifier, compute a 256-bit cryptographic
digest (SHA-256), take the leading 6 digest bytes, encode with URL-safe
base64, and strip padding characters. -/
def specShortCode (secret : String) (recipe_id : Nat) : String :=
  ⟨(b64urlEncode
      ((sha256Bytes (strBytes (secret ++ toString recipe_id))).take 6)).filter
    (fun c => c ≠ '=')⟩

/-- Python string.ascii_letters ++ string.digits, the population of
secrets.choice in the fallback branch. -/
def ascii_letters_digits : List Char :=
  "abcdefghijklmnopqrstuvwxyzABCDEFGHIJKLMNOPQRSTUVWXYZ0123456789".data

/-- The fallback code of generate_short_link_code for recipe_id None
(backend/recipes/services.py 12-15): random_chars is the single character
drawn once by secrets.choice, and the join of the generator expression
repeats that same character eight times. -/
def fallbackCode (random_chars : Char) : String :=
  ⟨(List.range 8).map (fun _ => random_chars)⟩

/-- Embedding of generate_short_link_code (backend/recipes/services.py 9-23).
The single secrets.choice draw of the None branch is the random_chars
argument.  The source returns normally on every input and raises nothing;
the Except result type only makes the failure mode claimed by the spec
statable, and the error constructor is never used. -/
def generate_short_link_code (secret : String) (random_chars : Char)
    (recipe_id : Option Nat) : Except String String :=
  match recipe_id with
  | none => Except.ok (fallbackCode random_chars)
  | some rid => Except.ok (shortCodeOfId secret rid)

theorem b64char_mem (n : Nat) : b64char n ∈ b64urlChars := by
  have h : n % 64 < b64urlChars.length := by
    have h64 : n % 64 < 64 := Nat.mod_lt _ (by norm_num)
    have hlen : b64urlChars.length = 64 := by decide
    omega
  rw [b64char, List.getD_eq_getElem b64urlChars 'A' h]
  exact List.getElem_mem h

theorem b64char_urlsafe (n : Nat) :
    (b64char n).isAlphanum = true ∨ b64char n = '-' ∨ b64char n = '_' :=
  (by decide : ∀ c ∈ b64urlChars, c.isAlphanum = true ∨ c = '-' ∨ c = '_')
    (b64char n) (b64char_mem n)

theorem b64char_ne_pad (n : Nat) : b64char n ≠ '=' :=
  (by decide : ∀ c ∈ b64urlChars, c ≠ '=') (b64char n) (b64char_mem n)

theorem b64_encode_take6 (msg : List Nat) :
    ∃ n1 n2 n3 n4 n5 n6 n7 n8 : Nat,
      b64urlEncode ((sha256Bytes msg).take 6)
        = [b64char n1, b64char n2, b64char n3, b64char n4,
           b64char n5, b64char n6, b64char n7, b64char n8] :=
  ⟨_, _, _, _, _, _, _, _, rfl⟩

/-- C2: for every recipe identifier, the short-link code equals the spec
pipeline (server secret concatenated with the decimal identifier, SHA-256,
leading 6 digest bytes, URL-safe base64, '=' padding stripped), is exactly 8
characters long, and uses only letters, digits, '-' and '_'. -/
theorem short_link_code_pipeline (secret : String) (recipe_id : Nat) :
    shortCodeOfId secret recipe_id = specShortCode secret recipe_id ∧
    (shortCodeOfId secret recipe_id).length = 8 ∧
    ∀ c ∈ (shortCodeOfId secret recipe_id).data,
      c.isAlphanum = true ∨ c = '-' ∨ c = '_' := by
  obtain ⟨n1, n2, n3, n4, n5, n6, n7, n8, henc⟩ :=
    b64_encode_take6 (strBytes (secret ++ toString recipe_id))
  have hdata : (shortCodeOfId secret recipe_id).data
      = (b64urlEncode
          ((sha256Bytes (strBytes (secret ++ toString recipe_id))).take
            6)).filter (fun c => c ≠ '=') := rfl
  have hfilter : (shortCodeOfId secret recipe_id).data
      = [b64char n1, b64char n2, b64char n3, b64char n4,
         b64char n5, b64char n6, b64char n7, b64char n8] := by
    rw [hdata, henc]
    refine List.filter_eq_self.mpr ?_
    intro a ha
    simp only [List.mem_cons, List.not_mem_nil, or_false] at ha
    rcases ha with h | h | h | h | h | h | h | h <;>
      (subst h; exact decide_eq_true (b64char_ne_pad _))
  refine ⟨rfl, ?_, ?_⟩
  · show (shortCodeOfId secret recipe_id).data.length = 8
    rw [hfilter]
    rfl
  · intro c hc
    rw [hfilter] at hc
    simp only [List.mem_cons, List.not_mem_nil, or_false] at hc
    rcases hc with h | h | h | h | h | h | h | h <;>
      (subst h; exact b64char_urlsafe _)

set_option maxRecDepth 10000 in
theorem short_link_code_pipeline_witness :
    (shortCodeOfId "s" 1).length = 8 ∧
    (('6' : Char).isAlphanum = true ∨ ('6' : Char) = '-'
      ∨ ('6' : Char) = '_') :=
  ⟨(short_link_code_pipeline "s" 1).2.1,
   (short_link_code_pipeline "s" 1).2.2 '6' (by decide)⟩

/-- C5 counterexample: called with recipe_id None, the generator does not
fail; it returns a code (here the fallback for the draw 'a'),
contradicting the claim that this input always errors. -/
theorem generate_none_returns_code :
    generate_short_link_code "secret" 'a' none = Except.ok "aaaaaaaa" := rfl

/-- C5 amended: calling the generator with recipe_id None does not fail:
it returns the fallback code, eight copies of the one character drawn by
secrets.choice, hence an 8-character alphanumeric code. -/
theorem generate_none_fallback (secret : String) (c : Char) :
    generate_short_link_code secret c none = Except.ok (fallbackCode c) ∧
    (fallbackCode c).length = 8 ∧
    (c ∈ ascii_letters_digits →
      ∀ ch ∈ (fallbackCode c).data, ch.isAlphanum = true) := by
  refine ⟨rfl, rfl, ?_⟩
  intro hc ch hch
  have hchc : ch = c := by
    simpa [fallbackCode] using hch
  subst hchc
  exact (by decide : ∀ x ∈ ascii_letters_digits, x.isAlphanum = true) ch hc

theorem generate_none_fallback_witness : ('a' : Char).isAlphanum = true :=
  (generate_none_fallback "secret" 'a').2.2 (by decide) 'a' (by decide)

/-- C10: the fallback code for recipe_id None is the single secrets.choice
character repeated eight times — every character of the code equals the
drawn character and the code has length 8 — so the codes this path can
produce are exactly the images of the 62 alphanumeric draws: a 62-element
duplicate-free list. -/
theorem fallback_code_single_char (c : Char) :
    (fallbackCode c).length = 8 ∧
    (∀ ch ∈ (fallbackCode c).data, ch = c) ∧
    (c ∈ ascii_letters_digits →
      fallbackCode c ∈ ascii_letters_digits.map fallbackCode) ∧
    (ascii_letters_digits.map fallbackCode).length = 62 ∧
    (ascii_letters_digits.map fallbackCode).Nodup := by
  refine ⟨rfl, ?_, ?_, rfl, ?_⟩
  · intro ch hch
    simpa [fallbackCode] using hch
  · intro hc
    exact List.mem_map_of_mem fallbackCode hc
  · decide

theorem fallback_code_single_char_witness :
    ('Z' : Char) = 'Z' ∧
    fallbackCode 'Z' ∈ ascii_letters_digits.map fallbackCode :=
  ⟨(fallback_code_single_char 'Z').2.1 'Z' (by decide),
   (fallback_code_single_char 'Z').2.2.1 (by decide)⟩

/-- C1 (code bug): the shopping-list aggregation never returns entries at
all.  The first queryset of download_shopping_cart filters with the keyword
shoppingcart while the declared reverse query name is shopping_carts, so
every call raises FieldError before the aggregation runs; in particular a
cart holding two recipes with (Salt, g) amounts 5 and 10 crashes instead of
yielding the single summed Salt entry. -/
theorem shopping_cart_aggregation_crashes :
    (∀ (table : List IngredientInRecipe) (cart : List (Nat × Nat))
      (user : Nat) (first_name username : String),
      download_shopping_cart table cart user first_name username
        = ViewOutcome.crash
            "FieldError: Cannot resolve keyword shoppingcart into field") ∧
    download_shopping_cart [⟨1, "Salt", "g", 5⟩, ⟨2, "Salt", "g", 10⟩]
        [(7, 1), (7, 2)] 7 "" ""
      = ViewOutcome.crash
          "FieldError: Cannot resolve keyword shoppingcart into field" :=
  ⟨fun _ _ _ _ _ => rfl, rfl⟩

/-- C7 (code bug): with a cart contributing zero ingredient rows the export
does not answer with the client-visible empty-cart error: the FieldError of
the first queryset precedes the empty check, so the endpoint crashes with a
server error instead. -/
theorem empty_cart_export_crashes :
    download_shopping_cart [] [] 0 "" ""
      = ViewOutcome.crash
          "FieldError: Cannot resolve keyword shoppingcart into field" ∧
    ∀ msg : String,
      download_shopping_cart [] [] 0 "" "" ≠ ViewOutcome.clientError msg :=
  ⟨rfl, fun _ h => ViewOutcome.noConfusion h⟩

/-- C3 (code bug): recipe creation is not atomic.  With the ingredient table
empty (ingredient 7 was deleted after serializer validation), creating
recipe 1 with tag 2 and ingredient row (7, 5) fails at the bulk insert, yet
the already committed recipe row and tag association remain observable:
the final state differs from the initial one and holds the recipe with no
ingredient rows, which the spec says must never be observable. -/
theorem recipe_create_partial_state_observable :
    recipe_create ⟨[], [], [], []⟩ 1 [2] [(7, 5)]
      = (⟨[], [1], [(1, 2)], []⟩, Except.error "IntegrityError") ∧
    (recipe_create ⟨[], [], [], []⟩ 1 [2] [(7, 5)]).1 ≠ ⟨[], [], [], []⟩ ∧
    1 ∈ (recipe_create ⟨[], [], [], []⟩ 1 [2] [(7, 5)]).1.recipes ∧
    (recipe_create ⟨[], [], [], []⟩ 1 [2] [(7, 5)]).1.recipe_ingredients
      = [] :=
  ⟨rfl, by decide, by decide, rfl⟩

/-- C4: subscribing a user to itself is always rejected with the self-follow
error, in every state of the subscription graph, and subscribe never creates
a self-edge: a successful subscribe preserves the absence of self-edges. -/
theorem subscribe_self_always_rejected (edges : List (Nat × Nat)) (u : Nat) :
    subscribe edges u u = Except.error "cannot follow self" ∧
    (∀ a b : Nat, ∀ edges2 : List (Nat × Nat),
      subscribe edges a b = Except.ok edges2 →
      (∀ p ∈ edges, p.1 ≠ p.2) → ∀ p ∈ edges2, p.1 ≠ p.2) := by
  constructor
  · simp [subscribe]
  · intro a b edges2 hok hinv p hp
    unfold subscribe at hok
    by_cases hab : a = b
    · simp [hab] at hok
    · rw [if_neg hab] at hok
      by_cases hmem : (a, b) ∈ edges
      · simp [hmem] at hok
      · rw [if_neg hmem] at hok
        injection hok with hok
        subst hok
        rcases List.mem_cons.mp hp with h | h
        · subst h
          exact hab
        · exact hinv p h

theorem subscribe_self_always_rejected_witness :
    subscribe [] 3 3 = Except.error "cannot follow self" ∧
    ((3, 4) : Nat × Nat).1 ≠ ((3, 4) : Nat × Nat).2 :=
  ⟨(subscribe_self_always_rejected [] 3).1,
   (subscribe_self_always_rejected [] 3).2 3 4 [(3, 4)] rfl
     (by intro p hp; simp at hp) (3, 4) (by simp)⟩

/-- C6: on a PUT or PATCH update, supplying tags but omitting the
ingredients set fails with a validation error naming ingredients and leaves
the stored ingredient-quantity set unchanged; symmetrically, omitting the
tags set fails naming tags. -/
theorem update_missing_set_validation (method : String) (tags : List Nat)
    (ingrs : List (Nat × Nat)) (data : RecipeUpdateData) (st : RecipeRelState)
    (hm : method = "PUT" ∨ method = "PATCH") :
    recipe_update method (some tags) none data st
        = (st, Except.error ("ingredients", "Обязательно.")) ∧
    (recipe_update method (some tags) none data st).1.recipe_ingredients
        = st.recipe_ingredients ∧
    recipe_update method none (some ingrs) data st
        = (st, Except.error ("tags", "Обязательно.")) := by
  have h1 : recipe_update method (some tags) none data st
      = (st, Except.error ("ingredients", "Обязательно.")) := by
    simp [recipe_update, hm]
  exact ⟨h1, by rw [h1], by simp [recipe_update, hm]⟩

theorem update_missing_set_validation_witness :
    recipe_update "PATCH" (some [1]) none ⟨none, none, none⟩
        ⟨⟨"n", "t", 1⟩, [1], [(5, 3)]⟩
      = (⟨⟨"n", "t", 1⟩, [1], [(5, 3)]⟩,
         Except.error ("ingredients", "Обязательно.")) :=
  (update_missing_set_validation "PATCH" [1] [(1, 2)] ⟨none, none, none⟩
    ⟨⟨"n", "t", 1⟩, [1], [(5, 3)]⟩ (Or.inr rfl)).1

/-- C8: adding a recipe to a collection fails with the conflict error when
the membership row exists and otherwise creates exactly one row, returning
the recipe's short representation; removing fails with the not-a-member
error when no row exists, leaving storage unchanged, and otherwise deletes
the row; hence a second consecutive add is rejected and exactly one row
remains.  The same holds for the cart-specific delete endpoint when the
recipe exists. -/
theorem collection_add_remove_contract (m : List (Nat × Nat)) (u : Nat)
    (r : Recipe) (recipes : List Recipe) :
    ((u, r.id) ∈ m →
      add_to m u r = (m, Except.error "Элемент уже присутствует")) ∧
    ((u, r.id) ∉ m →
      add_to m u r = ((u, r.id) :: m, Except.ok (shortRepr r)) ∧
      (add_to m u r).1.count (u, r.id) = 1) ∧
    ((u, r.id) ∉ m →
      remove_from m u r = (m, Except.error "Элемента нет")) ∧
    ((u, r.id) ∈ m →
      remove_from m u r = (m.erase (u, r.id), Except.ok ()) ∧
      (remove_from m u r).1.count (u, r.id) = m.count (u, r.id) - 1) ∧
    ((u, r.id) ∉ m →
      add_to (add_to m u r).1 u r
        = ((add_to m u r).1, Except.error "Элемент уже присутствует")) ∧
    ((∃ rec ∈ recipes, rec.id = r.id) → (u, r.id) ∉ m →
      delete_shopping_cart recipes m u r.id
        = (m, Except.error
            "Данный рецепт отсутствует в вашем списке покупок.")) ∧
    ((∃ rec ∈ recipes, rec.id = r.id) → (u, r.id) ∈ m →
      delete_shopping_cart recipes m u r.id
        = (m.erase (u, r.id), Except.ok ())) := by
  refine ⟨?_, ?_, ?_, ?_, ?_, ?_, ?_⟩
  · intro hmem
    simp [add_to, hmem]
  · intro hmem
    constructor
    · simp [add_to, hmem]
    · rw [show (add_to m u r).1 = (u, r.id) :: m by simp [add_to, hmem]]
      rw [List.count_cons_self, List.count_eq_zero.mpr hmem]
  · intro hmem
    simp [remove_from, hmem]
  · intro hmem
    refine ⟨by simp [remove_from, hmem], ?_⟩
    rw [show (remove_from m u r).1 = m.erase (u, r.id) by
      simp [remove_from, hmem]]
    exact List.count_erase_self (u, r.id) m
  · intro hmem
    have h1 : (add_to m u r).1 = (u, r.id) :: m := by simp [add_to, hmem]
    rw [h1]
    simp [add_to]
  · intro hex hmem
    have hany : recipes.any (fun rec => rec.id == r.id) = true := by
      simpa [List.any_eq_true] using hex
    simp [delete_shopping_cart, hany, hmem]
  · intro hex hmem
    have hany : recipes.any (fun rec => rec.id == r.id) = true := by
      simpa [List.any_eq_true] using hex
    simp [delete_shopping_cart, hany, hmem]

theorem collection_add_remove_contract_witness :
    (add_to [] 1 ⟨2, "Soup", "img", 30⟩).1.count (1, 2) = 1 ∧
    add_to (add_to [] 1 ⟨2, "Soup", "img", 30⟩).1 1 ⟨2, "Soup", "img", 30⟩
      = ((add_to [] 1 ⟨2, "Soup", "img", 30⟩).1,
         Except.error "Элемент уже присутствует") ∧
    delete_shopping_cart [⟨2, "Soup", "img", 30⟩] [] 1 2
      = ([], Except.error
          "Данный рецепт отсутствует в вашем списке покупок.") :=
  ⟨((collection_add_remove_contract [] 1 ⟨2, "Soup", "img", 30⟩ []).2.1
      (by decide)).2,
   (collection_add_remove_contract [] 1 ⟨2, "Soup", "img", 30⟩ []).2.2.2.2.1
      (by decide),
   (collection_add_remove_contract [] 1 ⟨2, "Soup", "img", 30⟩
      [⟨2, "Soup", "img", 30⟩]).2.2.2.2.2.1
      ⟨⟨2, "Soup", "img", 30⟩, by simp⟩ (by decide)⟩

/-- C9 counterexample: recipes_limit values outside the ASCII decimal range
are not ignored.  The superscript two passes isdigit, so int() is called and
raises ValueError — the request fails instead of returning the full list —
and the Arabic-Indic digit three caps the list at 3 instead of being
ignored. -/
theorem recipes_limit_unicode_counterexample :
    get_recipes (some "²") [⟨1, "a", "i", 1⟩] = Except.error "ValueError" ∧
    get_recipes (some "٣")
        [⟨1, "a", "i", 1⟩, ⟨2, "b", "i", 1⟩, ⟨3, "c", "i", 1⟩,
         ⟨4, "d", "i", 1⟩]
      = Except.ok [⟨1, "a", "i", 1⟩, ⟨2, "b", "i", 1⟩, ⟨3, "c", "i", 1⟩] :=
  ⟨rfl, rfl⟩

/-- C9 amended: a recipes_limit whose characters are all Unicode decimal
digits caps the preview at its positive value and is ignored at value zero;
a string failing str.isdigit, or an absent parameter, is ignored with the
full list returned; a string passing str.isdigit but holding a digit-type
non-decimal character makes int() raise ValueError and the request fail. -/
theorem recipes_limit_amended_behavior (limit_str : String)
    (recipes : List Recipe) :
    (pyIsDigit limit_str = true →
      (∀ c ∈ limit_str.data, (pyDecimalDigitVal c).isSome = true) →
      0 < pyIntVal limit_str →
      get_recipes (some limit_str) recipes
        = Except.ok (recipes.take (pyIntVal limit_str))) ∧
    (pyIsDigit limit_str = true →
      (∀ c ∈ limit_str.data, (pyDecimalDigitVal c).isSome = true) →
      pyIntVal limit_str = 0 →
      get_recipes (some limit_str) recipes = Except.ok recipes) ∧
    (pyIsDigit limit_str = false →
      get_recipes (some limit_str) recipes = Except.ok recipes) ∧
    (pyIsDigit limit_str = true →
      ¬ (∀ c ∈ limit_str.data, (pyDecimalDigitVal c).isSome = true) →
      get_recipes (some limit_str) recipes = Except.error "ValueError") ∧
    get_recipes none recipes = Except.ok recipes := by
  have hsplit : pyIsDigit limit_str = true → (limit_str.length != 0) = true := by
    intro hd
    unfold pyIsDigit at hd
    simp only [Bool.and_eq_true] at hd
    exact hd.1
  refine ⟨?_, ?_, ?_, ?_, rfl⟩
  · intro hd hdec hpos
    have hne := hsplit hd
    have hall : limit_str.data.all
        (fun c => (pyDecimalDigitVal c).isSome) = true :=
      List.all_eq_true.mpr hdec
    have h0 : ¬ pyIntVal limit_str = 0 := Nat.pos_iff_ne_zero.mp hpos
    simp [get_recipes, hd, hne, pyInt, hall, h0]
  · intro hd hdec h0
    have hne := hsplit hd
    have hall : limit_str.data.all
        (fun c => (pyDecimalDigitVal c).isSome) = true :=
      List.all_eq_true.mpr hdec
    simp [get_recipes, hd, hne, pyInt, hall, h0]
  · intro hd
    simp [get_recipes, hd]
  · intro hd hndec
    have hne := hsplit hd
    have hall : limit_str.data.all
        (fun c => (pyDecimalDigitVal c).isSome) = false := by
      rcases Bool.eq_false_or_eq_true
        (limit_str.data.all (fun c => (pyDecimalDigitVal c).isSome))
        with h | h
      · exact absurd (List.all_eq_true.mp h) hndec
      · exact h
    simp [get_recipes, hd, hne, pyInt, hall]

theorem recipes_limit_amended_behavior_witness :
    get_recipes (some "2")
        [⟨1, "a", "i", 1⟩, ⟨2, "b", "i", 1⟩, ⟨3, "c", "i", 1⟩]
      = Except.ok [⟨1, "a", "i", 1⟩, ⟨2, "b", "i", 1⟩] :=
  ((recipes_limit_amended_behavior "2"
      [⟨1, "a", "i", 1⟩, ⟨2, "b", "i", 1⟩, ⟨3, "c", "i", 1⟩]).1
    (by decide) (by decide) (by decide)).trans rfl

end Foodgram
